import Mathlib

/-
  Verification development for the utility layer of a SQLite binding
  (src/src/util.c): the GIL/native-mutex call bridge, the per-object
  in-use guard, error-message capture, sqlite3_value conversion, the
  unraisable-exception dispatcher, and the call-context tracker.
-/

namespace Apsw

/-! ### Result codes (sqlite3.h constants used by util.c) -/

def SQLITE_OK : Nat := 0

def SQLITE_ERROR : Nat := 1

def SQLITE_ROW : Nat := 100

def SQLITE_DONE : Nat := 101

/-! ### The execution lock bridge: `_PYSQLITE_CALL_V` and `_PYSQLITE_CALL_E`

`_PYSQLITE_CALL_E(db, x)` expands to:
  `Py_BEGIN_ALLOW_THREADS; sqlite3_mutex_enter(sqlite3_db_mutex(db)); x;`
  `if (res != SQLITE_OK && res != SQLITE_DONE && res != SQLITE_ROW)`
  `  apsw_set_errmsg(sqlite3_errmsg(db));`
  `sqlite3_mutex_leave(sqlite3_db_mutex(db)); Py_END_ALLOW_THREADS;`
We embed each macro as the sequence of lock / native events it performs,
parameterised by the result code `res` the wrapped operation produced. -/

inductive BridgeEvent where
  | gilRelease
  | gilAcquire
  | mutexEnter
  | mutexLeave
  | runOp
  | captureErrmsg
  deriving DecidableEq

/-- Event trace of `_PYSQLITE_CALL_E(db, x)` when the wrapped operation
sets the result variable `res`. -/
def PYSQLITE_CALL_E_events (res : Nat) : List BridgeEvent :=
  [BridgeEvent.gilRelease, BridgeEvent.mutexEnter, BridgeEvent.runOp]
    ++ (if res != SQLITE_OK && res != SQLITE_DONE && res != SQLITE_ROW
        then [BridgeEvent.captureErrmsg] else [])
    ++ [BridgeEvent.mutexLeave, BridgeEvent.gilAcquire]

/-- Event trace of `_PYSQLITE_CALL_V(x)`: release the GIL, run the
operation (no result code is consulted), reacquire the GIL. -/
def PYSQLITE_CALL_V_events : List BridgeEvent :=
  [BridgeEvent.gilRelease, BridgeEvent.runOp, BridgeEvent.gilAcquire]

/-- Which of the two locks are held.  `gil` is the runtime-wide
exclusivity lock, `dbMutex` is the native handle's mutex
(`sqlite3_db_mutex`). -/
structure LockState where
  gil : Bool
  dbMutex : Bool
  deriving DecidableEq

/-- Effect of one bridge event on the lock state. -/
def stepLock (s : LockState) : BridgeEvent → LockState
  | BridgeEvent.gilRelease => { s with gil := false }
  | BridgeEvent.gilAcquire => { s with gil := true }
  | BridgeEvent.mutexEnter => { s with dbMutex := true }
  | BridgeEvent.mutexLeave => { s with dbMutex := false }
  | _ => s

/-- A bridge macro starts with the GIL held and the native mutex free. -/
def initLock : LockState := { gil := true, dbMutex := false }

/-- Checks, along a trace, that the native mutex is only entered once the
GIL has been released, that the GIL is only reacquired once the native
mutex has been released, and that the two locks are never held
simultaneously. -/
def lockOrderOk : LockState → List BridgeEvent → Bool
  | _, [] => true
  | s, e :: es =>
    (match e with
     | BridgeEvent.mutexEnter => !s.gil
     | BridgeEvent.gilAcquire => !s.dbMutex
     | _ => true)
    && !((stepLock s e).gil && (stepLock s e).dbMutex)
    && lockOrderOk (stepLock s e) es

/-- Checks that every error-capture event in a trace happens while the
native mutex is held and while the GIL is released. -/
def captureUnderMutex : LockState → List BridgeEvent → Bool
  | _, [] => true
  | s, e :: es =>
    (if e = BridgeEvent.captureErrmsg then s.dbMutex && !s.gil else true)
    && captureUnderMutex (stepLock s e) es

/-- Error-message state: the text currently stored on the native handle
(`sqlite3_errmsg`) and the owned thread-local copy held by the binding. -/
structure ErrState where
  nativeMsg : String
  tlsMsg : Option String

/-- Modelled from the spec: `apsw_set_errmsg` is declared outside the
analyzed sources; per the spec it stores an owned, independently
allocated copy of the message into the binding's thread-local error
state (never a borrowed pointer into native storage). -/
def apsw_set_errmsg (st : ErrState) (msg : String) : ErrState :=
  { st with tlsMsg := some msg }

/-- Effect of one bridge event on the error-message state: the capture
event copies the native handle's current text into owned storage. -/
def stepErr (st : ErrState) : BridgeEvent → ErrState
  | BridgeEvent.captureErrmsg => apsw_set_errmsg st st.nativeMsg
  | _ => st

/-- Runs the error-message machine over a trace. -/
def runErr (st : ErrState) : List BridgeEvent → ErrState
  | [] => st
  | e :: es => runErr (stepErr st e) es

theorem errcode_accepted_iff (res : Nat) :
    (res != SQLITE_OK && res != SQLITE_DONE && res != SQLITE_ROW) = true
      ↔ ¬(res = SQLITE_OK ∨ res = SQLITE_ROW ∨ res = SQLITE_DONE) := by
  simp only [Bool.and_eq_true, bne_iff_ne, ne_eq]
  tauto

/-- Claim C1: in a checked call, the native error text is captured into
owned storage exactly when the result code is outside {ok, row, done},
and the capture event happens while the native mutex is held and the
GIL is still released. -/
theorem checked_call_capture (res : Nat) (msg : String) (tls0 : Option String) :
    ((BridgeEvent.captureErrmsg ∈ PYSQLITE_CALL_E_events res)
       ↔ ¬(res = SQLITE_OK ∨ res = SQLITE_ROW ∨ res = SQLITE_DONE))
    ∧ captureUnderMutex initLock (PYSQLITE_CALL_E_events res) = true
    ∧ (¬(res = SQLITE_OK ∨ res = SQLITE_ROW ∨ res = SQLITE_DONE) →
        (runErr { nativeMsg := msg, tlsMsg := tls0 }
          (PYSQLITE_CALL_E_events res)).tlsMsg = some msg)
    ∧ ((res = SQLITE_OK ∨ res = SQLITE_ROW ∨ res = SQLITE_DONE) →
        (runErr { nativeMsg := msg, tlsMsg := tls0 }
          (PYSQLITE_CALL_E_events res)).tlsMsg = tls0) := by
  by_cases hacc : res = SQLITE_OK ∨ res = SQLITE_ROW ∨ res = SQLITE_DONE
  · have hb : (res != SQLITE_OK && res != SQLITE_DONE && res != SQLITE_ROW) = false := by
      rcases Bool.eq_false_or_eq_true (res != SQLITE_OK && res != SQLITE_DONE && res != SQLITE_ROW)
        with h | h
      · exact absurd hacc ((errcode_accepted_iff res).mp h)
      · exact h
    refine ⟨?_, ?_, ?_, ?_⟩
    · simp [PYSQLITE_CALL_E_events, hb, hacc]
    · simp [PYSQLITE_CALL_E_events, hb, captureUnderMutex, stepLock, initLock]
    · intro hc; exact absurd hacc hc
    · intro _
      simp [PYSQLITE_CALL_E_events, hb, runErr, stepErr]
  · have hb : (res != SQLITE_OK && res != SQLITE_DONE && res != SQLITE_ROW) = true :=
      (errcode_accepted_iff res).mpr hacc
    refine ⟨?_, ?_, ?_, ?_⟩
    · simp [PYSQLITE_CALL_E_events, hb, hacc]
    · simp [PYSQLITE_CALL_E_events, hb, captureUnderMutex, stepLock, initLock]
    · intro _
      simp [PYSQLITE_CALL_E_events, hb, runErr, stepErr, apsw_set_errmsg]
    · intro hc; exact absurd hc hacc

def sampleMsg : String := "disk error"

/-- Witness for C1 at the concrete codes `SQLITE_ERROR` and `SQLITE_OK`. -/
theorem checked_call_capture_witness :
    (BridgeEvent.captureErrmsg ∈ PYSQLITE_CALL_E_events SQLITE_ERROR)
    ∧ captureUnderMutex initLock (PYSQLITE_CALL_E_events SQLITE_ERROR) = true
    ∧ (runErr { nativeMsg := sampleMsg, tlsMsg := none }
        (PYSQLITE_CALL_E_events SQLITE_ERROR)).tlsMsg = some sampleMsg
    ∧ (runErr { nativeMsg := sampleMsg, tlsMsg := none }
        (PYSQLITE_CALL_E_events SQLITE_OK)).tlsMsg = none := by
  have h1 := checked_call_capture SQLITE_ERROR sampleMsg none
  have h0 := checked_call_capture SQLITE_OK sampleMsg none
  exact ⟨h1.1.mpr (by decide), h1.2.1, h1.2.2.1 (by decide), h0.2.2.2 (by decide)⟩

/-- Claim C9: in both bridge shapes the runtime lock is released before
the native mutex is acquired and the native mutex is released before
the runtime lock is reacquired; the two locks are never held at once,
so there is no inversion. -/
theorem lock_ordering (res : Nat) :
    lockOrderOk initLock (PYSQLITE_CALL_E_events res) = true
    ∧ lockOrderOk initLock PYSQLITE_CALL_V_events = true := by
  refine ⟨?_, by decide⟩
  rcases Bool.eq_false_or_eq_true (res != SQLITE_OK && res != SQLITE_DONE && res != SQLITE_ROW)
    with hb | hb
  · simp only [PYSQLITE_CALL_E_events, hb, if_pos]
    decide
  · simp only [PYSQLITE_CALL_E_events, hb, if_neg]
    decide

/-! ### The in-use reentrancy guard: `CHECK_USE` and `INUSE_CALL`

`CHECK_USE(e)` expands to:
  `if (self->inuse) { if (!PyErr_Occurred())`
  `  PyErr_Format(ExcThreadingViolation, ...); return e; }`
`INUSE_CALL(x)` expands to:
  `assert(self->inuse == 0); self->inuse = 1; { x; }`
  `assert(self->inuse == 1); self->inuse = 0;`
We model the Python exception classes involved as an enumeration and a
wrapped object's observable state as its in-use flag, the pending
exception of the calling thread, and an abstract inner state. -/

inductive ExcKind where
  | threadingViolation
  | connectionClosed
  | otherError
  deriving DecidableEq

structure ObjState (σ : Type) where
  inuse : Bool
  pending : Option ExcKind
  inner : σ

/-- `CHECK_USE`: given the object's in-use flag and the thread's pending
exception, returns `some p` when the macro returns early with pending
exception `p`, and `none` when control falls through to the body. -/
def check_use (inuse : Bool) (pending : Option ExcKind) : Option (Option ExcKind) :=
  if inuse then
    some (if pending.isSome then pending else some ExcKind.threadingViolation)
  else none

/-- `INUSE_CALL(x)`: sets the in-use flag, runs the body (which observes
the flag value current while it runs, and transforms the inner state),
then clears the flag. -/
def inuse_call {σ α : Type} (s : ObjState σ) (body : Bool → σ → σ × α) :
    ObjState σ × α :=
  ({ inuse := false, pending := s.pending, inner := (body true s.inner).1 },
   (body true s.inner).2)

/-- An API entry point guarded by `CHECK_USE` whose work is wrapped in
`INUSE_CALL`, the composition used by connection/cursor/blob methods.
Returns the final object state and `some` result when the body ran,
`none` when the guard rejected the call. -/
def guarded_call {σ α : Type} (s : ObjState σ) (body : Bool → σ → σ × α) :
    ObjState σ × Option α :=
  match check_use s.inuse s.pending with
  | some p => ({ s with pending := p }, none)
  | none => ((inuse_call s body).1, some (inuse_call s body).2)

def busyState : ObjState Nat :=
  { inuse := true, pending := some ExcKind.otherError, inner := 7 }

def idleState : ObjState Nat :=
  { inuse := false, pending := none, inner := 7 }

def sampleBody : Bool → Nat → Nat × Nat := fun _ n => (n + 1, n)

/-- Counterexample to claim C2 as stated: when the object is in use but
the calling thread already has a pending exception of another class,
the call still fails immediately, but the surfaced error is the
already-pending one, not a ThreadingViolation. -/
theorem check_use_counterexample :
    (guarded_call busyState sampleBody).2 = none
    ∧ (guarded_call busyState sampleBody).1.pending = some ExcKind.otherError
    ∧ ¬((guarded_call busyState sampleBody).1.pending
          = some ExcKind.threadingViolation) := by
  refine ⟨rfl, rfl, by decide⟩

/-- Claim C2 (amended): if the in-use flag is set, the call entering
through the use-check fails immediately — the body never runs, the
in-flight call's state is untouched — with a ThreadingViolation-class
error when no exception is already pending (an already-pending
exception is preserved); otherwise the body runs observing the flag
set, and the flag is cleared afterwards. -/
theorem inuse_guard_behaviour {σ α : Type} (s : ObjState σ) (body : Bool → σ → σ × α) :
    (s.inuse = true →
      (guarded_call s body).2 = none
      ∧ (guarded_call s body).1.inner = s.inner
      ∧ (guarded_call s body).1.inuse = true
      ∧ (s.pending = none →
          (guarded_call s body).1.pending = some ExcKind.threadingViolation)
      ∧ (∀ p : ExcKind, s.pending = some p →
          (guarded_call s body).1.pending = some p))
    ∧ (s.inuse = false →
      (guarded_call s body).2 = some (body true s.inner).2
      ∧ (guarded_call s body).1.inner = (body true s.inner).1
      ∧ (guarded_call s body).1.inuse = false
      ∧ (guarded_call s body).1.pending = s.pending) := by
  constructor
  · intro hu
    refine ⟨?_, ?_, ?_, ?_, ?_⟩
    · simp [guarded_call, check_use, hu]
    · simp [guarded_call, check_use, hu]
    · simp [guarded_call, check_use, hu]
    · intro hp; simp [guarded_call, check_use, hu, hp]
    · intro p hp; simp [guarded_call, check_use, hu, hp]
  · intro hu
    refine ⟨?_, ?_, ?_, ?_⟩ <;>
      simp [guarded_call, check_use, inuse_call, hu]

/-- Witness for C2 (amended): at a busy object the call fails at once
preserving the in-flight state; at an idle object the body runs with
the flag observed set and the flag ends cleared. -/
theorem inuse_guard_behaviour_witness :
    ((guarded_call busyState sampleBody).2 = none
      ∧ (guarded_call busyState sampleBody).1.inner = busyState.inner
      ∧ (guarded_call busyState sampleBody).1.inuse = true
      ∧ (guarded_call busyState sampleBody).1.pending = some ExcKind.otherError)
    ∧ ((guarded_call idleState sampleBody).2 = some 7
      ∧ (guarded_call idleState sampleBody).1.inner = 8
      ∧ (guarded_call idleState sampleBody).1.inuse = false
      ∧ (guarded_call idleState sampleBody).1.pending = none) := by
  have hb := (inuse_guard_behaviour busyState sampleBody).1 rfl
  have hi := (inuse_guard_behaviour idleState sampleBody).2 rfl
  exact ⟨⟨hb.1, hb.2.1, hb.2.2.1, hb.2.2.2.2 ExcKind.otherError rfl⟩,
         ⟨hi.1, hi.2.1, hi.2.2.1, hi.2.2.2⟩⟩

/-! ### The call-context tracker: `CALL_ENTER`, `CALL_LEAVE`, `CALL_CHECK`

`CALL_ENTER(name)` saves `self->in_call##name`, creates a local
sentinel carrying `MAGIC_##name`, and installs a pointer to it in the
slot; `CALL_LEAVE(name)` restores the saved value; `CALL_CHECK(name)`
asks whether the slot is non-null.  We model the slot as an optional
sentinel identifier. -/

/-- `CALL_ENTER`: returns the saved previous slot value together with
the newly installed slot value, which points at the fresh local
sentinel `here`. -/
def CALL_ENTER (slot : Option Nat) (here : Nat) : Option Nat × Option Nat :=
  (slot, some here)

/-- `CALL_LEAVE`: the slot becomes the value saved by the matching
`CALL_ENTER`. -/
def CALL_LEAVE (saved : Option Nat) : Option Nat :=
  saved

/-- `CALL_CHECK`: the context is reported active exactly when the slot
is non-null. -/
def CALL_CHECK (slot : Option Nat) : Bool :=
  slot.isSome

/-- Claim C8: entering saves the current slot and installs the fresh
sentinel; leaving restores the saved value; the query reports active
exactly when the slot is non-null; the sequence enter, enter, leave,
leave on one name returns the slot to its initial value, so starting
from the inactive slot it ends inactive — strict LIFO save/restore. -/
theorem call_track_lifo (s0 : Option Nat) (a b : Nat) :
    (CALL_ENTER s0 a).1 = s0
    ∧ (CALL_ENTER s0 a).2 = some a
    ∧ CALL_CHECK (CALL_ENTER s0 a).2 = true
    ∧ CALL_CHECK (CALL_ENTER (CALL_ENTER s0 a).2 b).2 = true
    ∧ CALL_LEAVE (CALL_ENTER (CALL_ENTER s0 a).2 b).1 = (CALL_ENTER s0 a).2
    ∧ CALL_LEAVE (CALL_ENTER s0 a).1 = s0
    ∧ CALL_CHECK s0 = s0.isSome
    ∧ CALL_CHECK (CALL_LEAVE (CALL_ENTER none a).1) = false := by
  exact ⟨rfl, rfl, rfl, rfl, rfl, rfl, rfl, rfl⟩

/-! ### Value conversion: `convert_value_to_pyobject`

A `sqlite3_value` is embedded as its type tag, the payload read by the
typed accessors, the `sqlite3_value_nochange` flag, a flag modelling a
host-allocation failure while building the converted value (the code
checks every constructor result for NULL; `faultinject.h` injects such
failures), and the IN-list iteration behaviour the native engine
exposes for this value: the result code of `sqlite3_vtab_in_first`,
the first element it yields, and the successive
`(result code, element)` pairs returned by `sqlite3_vtab_in_next`. -/

inductive ColType where
  | integer
  | float
  | text
  | blob
  | null
  deriving DecidableEq

inductive PyValue where
  | pyInt (i : Int)
  | pyFloat (f : Int)
  | pyStr (s : String)
  | pyBytes (b : List Nat)
  | pyNone
  deriving DecidableEq

inductive PyObject where
  | val (v : PyValue)
  | noChange
  | pySet (elems : List PyValue)
  deriving DecidableEq

inductive SqliteValue : Type where
  | mk (coltype : ColType) (intval : Int) (floatval : Int) (textval : String)
      (blobval : List Nat) (nochange : Bool) (allocFails : Bool)
      (firstCode : Nat) (firstVal : Option SqliteValue)
      (nexts : List (Nat × Option SqliteValue)) : SqliteValue

def SqliteValue.coltype : SqliteValue → ColType
  | .mk c _ _ _ _ _ _ _ _ _ => c

def SqliteValue.nochange : SqliteValue → Bool
  | .mk _ _ _ _ _ n _ _ _ _ => n

def SqliteValue.firstCode : SqliteValue → Nat
  | .mk _ _ _ _ _ _ _ fc _ _ => fc

def SqliteValue.firstVal : SqliteValue → Option SqliteValue
  | .mk _ _ _ _ _ _ _ _ fv _ => fv

def SqliteValue.nexts : SqliteValue → List (Nat × Option SqliteValue)
  | .mk _ _ _ _ _ _ _ _ _ nx => nx

/-- Conversion of a value by its type tag alone, as performed when both
optional modes are disabled.  `none` models the host runtime failing
to allocate the converted object (the singletons `None` need no
allocation). -/
def convert_plain : SqliteValue → Option PyValue
  | .mk c i f t b _ af _ _ _ =>
    match c with
    | ColType.integer => if af then none else some (PyValue.pyInt i)
    | ColType.float => if af then none else some (PyValue.pyFloat f)
    | ColType.text => if af then none else some (PyValue.pyStr t)
    | ColType.blob => if af then none else some (PyValue.pyBytes b)
    | ColType.null => some PyValue.pyNone

/-- `PySet_Add`: a set keeps one copy of each element. -/
def pySetAdd (s : List PyValue) (v : PyValue) : List PyValue :=
  if v ∈ s then s else s ++ [v]

/-- The IN-list expansion loop of `convert_value_to_pyobject`: while the
current element pointer is non-null, convert the element (the source
calls `convert_value_to_pyobject(in_value, 0, 0)`, which with both
flags clear equals `convert_plain` — theorem `convert_both_disabled`),
add it to the set, and step with `sqlite3_vtab_in_next`, aborting on a
failed conversion or on a step code outside {ok, done}.  When the
modelled step list is exhausted the engine reports done with no next
element. -/
def inLoop : Option SqliteValue → List (Nat × Option SqliteValue) → List PyValue →
    Option PyObject
  | none, _, set => some (PyObject.pySet set)
  | some e, [], set =>
    (convert_plain e).map (fun pv => PyObject.pySet (pySetAdd set pv))
  | some e, (res, iv) :: rest, set =>
    (convert_plain e).bind (fun pv =>
      if res == SQLITE_DONE || res == SQLITE_OK then inLoop iv rest (pySetAdd set pv)
      else none)

/-- `convert_value_to_pyobject(value, in_constraint_possible,
no_change_possible)`: the no-change check runs first; then the tag
dispatch, where the null/default arm expands an IN-constraint list
when constraint mode is on and `sqlite3_vtab_in_first` accepts the
value, and yields plain `None` otherwise. -/
def convert_value_to_pyobject (value : SqliteValue)
    (in_constraint_possible no_change_possible : Bool) : Option PyObject :=
  if no_change_possible && value.nochange then some PyObject.noChange
  else
    match value with
    | .mk c i f t b _ af fc fv nx =>
      match c with
      | ColType.integer => if af then none else some (PyObject.val (PyValue.pyInt i))
      | ColType.float => if af then none else some (PyObject.val (PyValue.pyFloat f))
      | ColType.text => if af then none else some (PyObject.val (PyValue.pyStr t))
      | ColType.null =>
        if in_constraint_possible && (fc == SQLITE_OK) then inLoop fv nx []
        else some (PyObject.val PyValue.pyNone)
      | ColType.blob => if af then none else some (PyObject.val (PyValue.pyBytes b))

/-- `convert_value_to_pyobject_not_in`: conversion with both optional
modes disabled. -/
def convert_value_to_pyobject_not_in (value : SqliteValue) : Option PyObject :=
  convert_value_to_pyobject value false false

/-- With both optional modes disabled, conversion is the plain tag
dispatch: the nochange flag and the IN-list data are never consulted. -/
theorem convert_both_disabled (e : SqliteValue) :
    convert_value_to_pyobject e false false = (convert_plain e).map PyObject.val := by
  rcases e with ⟨c, i, f, t, b, n, af, fc, fv, nx⟩
  cases c <;> cases af <;>
    simp [convert_value_to_pyobject, convert_plain, SqliteValue.nochange]

/-- Converting an element with both optional modes disabled yields a
given plain value exactly when the tag dispatch does. -/
theorem convert_plain_val (e : SqliteValue) (x : PyValue) :
    convert_value_to_pyobject e false false = some (PyObject.val x)
      ↔ convert_plain e = some x := by
  rw [convert_both_disabled]
  cases hcp : convert_plain e <;> simp

/-- Does the expansion loop hit a failure: an element whose conversion
fails, or a step whose code is outside {ok, done}? -/
def loopFails : Option SqliteValue → List (Nat × Option SqliteValue) → Bool
  | none, _ => false
  | some e, [] => (convert_plain e).isNone
  | some e, (res, iv) :: rest =>
    (convert_plain e).isNone
      || (if res == SQLITE_DONE || res == SQLITE_OK then loopFails iv rest else true)

/-- The elements the IN-list iteration yields, in order. -/
def iterElems : Option SqliteValue → List (Nat × Option SqliteValue) → List SqliteValue
  | none, _ => []
  | some e, [] => [e]
  | some e, (res, iv) :: rest =>
    e :: (if res == SQLITE_DONE || res == SQLITE_OK then iterElems iv rest else [])

theorem mem_pySetAdd (s : List PyValue) (v x : PyValue) :
    x ∈ pySetAdd s v ↔ x ∈ s ∨ x = v := by
  unfold pySetAdd
  by_cases h : v ∈ s
  · simp only [if_pos h]
    constructor
    · exact Or.inl
    · rintro (hx | rfl)
      · exact hx
      · exact h
  · simp [if_neg h]

theorem nodup_pySetAdd (s : List PyValue) (v : PyValue) (h : s.Nodup) :
    (pySetAdd s v).Nodup := by
  unfold pySetAdd
  by_cases hv : v ∈ s
  · simpa [if_pos hv] using h
  · simp [if_neg hv, List.nodup_append, h, hv]

/-- A failing iteration makes the loop abort with a conversion failure,
whatever set has been accumulated so far. -/
theorem inLoop_abort (nexts : List (Nat × Option SqliteValue)) :
    ∀ (first : Option SqliteValue) (set0 : List PyValue),
      loopFails first nexts = true → inLoop first nexts set0 = none := by
  induction nexts with
  | nil =>
    intro first set0 hf
    cases first with
    | none => simp [loopFails] at hf
    | some e =>
      cases hc : convert_plain e with
      | none => simp [inLoop, hc]
      | some pv => simp [loopFails, hc] at hf
  | cons p rest ih =>
    intro first set0 hf
    cases first with
    | none => simp [loopFails] at hf
    | some e =>
      cases hc : convert_plain e with
      | none => rcases p with ⟨res, iv⟩; simp [inLoop, hc]
      | some pv =>
        rcases p with ⟨res, iv⟩
        by_cases hres : (res == SQLITE_DONE || res == SQLITE_OK) = true
        · simp only [loopFails, hc, hres, Option.isNone_some, Bool.false_or,
            if_true] at hf
          simp only [inLoop, hc, hres, if_true, Option.bind_some]
          exact ih iv (pySetAdd set0 pv) hf
        · simp [inLoop, hc, hres]

/-- A failure-free iteration produces the deduplicated set of the
converted elements on top of the accumulator. -/
theorem inLoop_success (nexts : List (Nat × Option SqliteValue)) :
    ∀ (first : Option SqliteValue) (set0 : List PyValue),
      loopFails first nexts = false → set0.Nodup →
      ∃ l, inLoop first nexts set0 = some (PyObject.pySet l) ∧ l.Nodup ∧
        ∀ x, x ∈ l ↔ (x ∈ set0 ∨ ∃ e, e ∈ iterElems first nexts ∧ convert_plain e = some x) := by
  induction nexts with
  | nil =>
    intro first set0 hf hnd
    cases first with
    | none =>
      refine ⟨set0, rfl, hnd, ?_⟩
      intro x
      simp [iterElems]
    | some e =>
      cases hc : convert_plain e with
      | none => simp [loopFails, hc] at hf
      | some pv =>
        refine ⟨pySetAdd set0 pv, by simp [inLoop, hc], nodup_pySetAdd set0 pv hnd, ?_⟩
        intro x
        rw [mem_pySetAdd]
        constructor
        · rintro (hx | rfl)
          · exact Or.inl hx
          · exact Or.inr ⟨e, by simp [iterElems], hc⟩
        · rintro (hx | ⟨e2, he2, hce2⟩)
          · exact Or.inl hx
          · simp only [iterElems, List.mem_singleton] at he2
            subst he2
            rw [hc] at hce2
            exact Or.inr (Option.some_injective _ hce2).symm
  | cons p rest ih =>
    intro first set0 hf hnd
    cases first with
    | none =>
      refine ⟨set0, rfl, hnd, ?_⟩
      intro x
      simp [iterElems]
    | some e =>
      cases hc : convert_plain e with
      | none => rcases p with ⟨res, iv⟩; simp [loopFails, hc] at hf
      | some pv =>
        rcases p with ⟨res, iv⟩
        by_cases hres : (res == SQLITE_DONE || res == SQLITE_OK) = true
        · simp only [loopFails, hc, hres, Option.isNone_some, Bool.false_or,
            if_true] at hf
          obtain ⟨l, hl, hlnd, hmem⟩ := ih iv (pySetAdd set0 pv) hf (nodup_pySetAdd set0 pv hnd)
          refine ⟨l, ?_, hlnd, ?_⟩
          · simp only [inLoop, hc, hres, if_true, Option.bind_some]
            exact hl
          · intro x
            rw [hmem x, mem_pySetAdd]
            constructor
            · rintro ((hx | rfl) | ⟨e2, he2, hce2⟩)
              · exact Or.inl hx
              · exact Or.inr ⟨e, by simp [iterElems, hres], hc⟩
              · refine Or.inr ⟨e2, ?_, hce2⟩
                simp [iterElems, hres, he2]
            · rintro (hx | ⟨e2, he2, hce2⟩)
              · exact Or.inl (Or.inl hx)
              · simp only [iterElems, hres, if_true, List.mem_cons] at he2
                rcases he2 with rfl | he2
                · rw [hc] at hce2
                  exact Or.inl (Or.inr (Option.some_injective _ hce2).symm)
                · exact Or.inr ⟨e2, he2, hce2⟩
        · simp [loopFails, hc, hres] at hf

/-- Claim C3: with constraint mode enabled, a null-tagged value accepted
by `sqlite3_vtab_in_first` is expanded by iterating to the exhausted
signal, converting each yielded element with both optional modes
disabled, into a deduplicated set in which only membership matters;
with constraint mode disabled the same value converts to plain null. -/
theorem constraint_expansion_correct (value : SqliteValue)
    (hnull : value.coltype = ColType.null)
    (hin : value.firstCode = SQLITE_OK)
    (hok : loopFails value.firstVal value.nexts = false) :
    (∃ l, convert_value_to_pyobject value true false = some (PyObject.pySet l)
      ∧ l.Nodup
      ∧ ∀ x, x ∈ l ↔ ∃ e, e ∈ iterElems value.firstVal value.nexts
          ∧ convert_value_to_pyobject e false false = some (PyObject.val x))
    ∧ convert_value_to_pyobject value false false = some (PyObject.val PyValue.pyNone) := by
  obtain ⟨l, hl, hnd, hmem⟩ := inLoop_success value.nexts value.firstVal [] hok List.nodup_nil
  constructor
  · refine ⟨l, ?_, hnd, ?_⟩
    · rcases value with ⟨c, i, f, t, b, n, af, fc, fv, nx⟩
      simp only [SqliteValue.coltype] at hnull
      simp only [SqliteValue.firstCode] at hin
      simp only [SqliteValue.firstVal, SqliteValue.nexts] at hl
      subst hnull hin
      simpa [convert_value_to_pyobject, SqliteValue.nochange] using hl
    · intro x
      rw [hmem x]
      simp only [List.not_mem_nil, false_or]
      constructor
      · rintro ⟨e, he, hce⟩
        exact ⟨e, he, (convert_plain_val e x).mpr hce⟩
      · rintro ⟨e, he, hce⟩
        exact ⟨e, he, (convert_plain_val e x).mp hce⟩
  · rcases value with ⟨c, i, f, t, b, n, af, fc, fv, nx⟩
    simp only [SqliteValue.coltype] at hnull
    subst hnull
    simp [convert_value_to_pyobject, SqliteValue.nochange]

/-- Claim C5: if converting some yielded element fails, or a
`sqlite3_vtab_in_next` step returns a code outside {ok, done}, the
expansion aborts: the partial set is discarded, never returned, and
the conversion surfaces a failure. -/
theorem constraint_expansion_aborts (value : SqliteValue)
    (hnull : value.coltype = ColType.null)
    (hin : value.firstCode = SQLITE_OK)
    (hfail : loopFails value.firstVal value.nexts = true) :
    convert_value_to_pyobject value true false = none := by
  have := inLoop_abort value.nexts value.firstVal [] hfail
  rcases value with ⟨c, i, f, t, b, n, af, fc, fv, nx⟩
  simp only [SqliteValue.coltype] at hnull
  simp only [SqliteValue.firstCode] at hin
  simp only [SqliteValue.firstVal, SqliteValue.nexts] at this
  subst hnull hin
  simpa [convert_value_to_pyobject, SqliteValue.nochange] using this

/-- Claim C4: with no-change mode enabled, a value the engine reports
unchanged converts to the distinguished no-change sentinel; with
no-change mode disabled the same value converts as an ordinary value —
plain null for an untouched (null-tagged) column. -/
theorem nochange_sentinel (value : SqliteValue) (h : value.nochange = true) :
    convert_value_to_pyobject value false true = some PyObject.noChange
    ∧ (value.coltype = ColType.null →
       convert_value_to_pyobject value false false
         = some (PyObject.val PyValue.pyNone)) := by
  constructor
  · simp [convert_value_to_pyobject, h]
  · intro hnull
    rcases value with ⟨c, i, f, t, b, n, af, fc, fv, nx⟩
    simp only [SqliteValue.coltype] at hnull
    subst hnull
    simp [convert_value_to_pyobject, SqliteValue.nochange]

/-- Claim C10: the no-change check precedes both the tag dispatch and
the constraint-list check: whatever the value's tag, and even with
constraint mode enabled on an IN-list head, an unchanged value yields
the no-change sentinel and no expansion. -/
theorem nochange_precedes_dispatch (value : SqliteValue) (icp : Bool)
    (h : value.nochange = true) :
    convert_value_to_pyobject value icp true = some PyObject.noChange := by
  simp [convert_value_to_pyobject, h]

/-! ### Concrete sample values for the marshaller claims -/

def emptyText : String := ""

def sampleA : String := "a"

def plainInt (i : Int) : SqliteValue :=
  SqliteValue.mk ColType.integer i 0 emptyText [] false false SQLITE_ERROR none []

def plainText (t : String) : SqliteValue :=
  SqliteValue.mk ColType.text 0 0 t [] false false SQLITE_ERROR none []

def plainNull : SqliteValue :=
  SqliteValue.mk ColType.null 0 0 emptyText [] false false SQLITE_ERROR none []

/-- An integer element whose host-side conversion fails to allocate. -/
def allocFailInt : SqliteValue :=
  SqliteValue.mk ColType.integer 4 0 emptyText [] false true SQLITE_ERROR none []

/-- The spec's example: the IN-list [1, "a", null, 1]. -/
def sampleInList : SqliteValue :=
  SqliteValue.mk ColType.null 0 0 emptyText [] false false SQLITE_OK
    (some (plainInt 1))
    [(SQLITE_OK, some (plainText sampleA)), (SQLITE_OK, some plainNull),
     (SQLITE_OK, some (plainInt 1)), (SQLITE_DONE, none)]

/-- An IN-list whose third `sqlite3_vtab_in_next` step returns an
unaccepted code (5 = SQLITE_BUSY). -/
def sampleBadStepList : SqliteValue :=
  SqliteValue.mk ColType.null 0 0 emptyText [] false false SQLITE_OK
    (some (plainInt 1))
    [(SQLITE_OK, some (plainText sampleA)), (5, some plainNull)]

/-- An IN-list whose second element fails to convert on the host side. -/
def sampleAllocFailList : SqliteValue :=
  SqliteValue.mk ColType.null 0 0 emptyText [] false false SQLITE_OK
    (some (plainInt 1))
    [(SQLITE_OK, some allocFailInt), (SQLITE_OK, some plainNull), (SQLITE_DONE, none)]

/-- A null-tagged, IN-capable value flagged unchanged by the engine. -/
def sampleNoChangeIn : SqliteValue :=
  SqliteValue.mk ColType.null 0 0 emptyText [] true false SQLITE_OK
    (some (plainInt 1)) [(SQLITE_DONE, none)]

/-- An integer-tagged value flagged unchanged by the engine. -/
def sampleNoChangeInt : SqliteValue :=
  SqliteValue.mk ColType.integer 9 0 emptyText [] true false SQLITE_ERROR none []

/-- Witness for C3 on the spec's example [1, "a", null, 1]: expansion
with constraint mode on yields exactly the deduplicated set
{1, "a", null}; with constraint mode off the value converts to null. -/
theorem constraint_expansion_correct_witness :
    sampleInList.coltype = ColType.null
    ∧ sampleInList.firstCode = SQLITE_OK
    ∧ loopFails sampleInList.firstVal sampleInList.nexts = false
    ∧ (∃ l, convert_value_to_pyobject sampleInList true false = some (PyObject.pySet l)
        ∧ l.Nodup
        ∧ ∀ x, x ∈ l ↔ ∃ e, e ∈ iterElems sampleInList.firstVal sampleInList.nexts
            ∧ convert_value_to_pyobject e false false = some (PyObject.val x))
    ∧ convert_value_to_pyobject sampleInList false false
        = some (PyObject.val PyValue.pyNone)
    ∧ convert_value_to_pyobject sampleInList true false
        = some (PyObject.pySet [PyValue.pyInt 1, PyValue.pyStr sampleA, PyValue.pyNone]) := by
  have h := constraint_expansion_correct sampleInList rfl rfl (by decide)
  exact ⟨rfl, rfl, by decide, h.1, h.2, by decide⟩

/-- Witness for C5 at two failing iterations: a bad step code, and a
failed element conversion; both abort with no partial set returned. -/
theorem constraint_expansion_aborts_witness :
    sampleBadStepList.coltype = ColType.null
    ∧ sampleBadStepList.firstCode = SQLITE_OK
    ∧ loopFails sampleBadStepList.firstVal sampleBadStepList.nexts = true
    ∧ convert_value_to_pyobject sampleBadStepList true false = none
    ∧ loopFails sampleAllocFailList.firstVal sampleAllocFailList.nexts = true
    ∧ convert_value_to_pyobject sampleAllocFailList true false = none := by
  have h1 := constraint_expansion_aborts sampleBadStepList rfl rfl (by decide)
  have h2 := constraint_expansion_aborts sampleAllocFailList rfl rfl (by decide)
  exact ⟨rfl, rfl, by decide, h1, by decide, h2⟩

/-- Witness for C4 at a null-tagged unchanged value. -/
theorem nochange_sentinel_witness :
    sampleNoChangeIn.nochange = true
    ∧ convert_value_to_pyobject sampleNoChangeIn false true = some PyObject.noChange
    ∧ convert_value_to_pyobject sampleNoChangeIn false false
        = some (PyObject.val PyValue.pyNone) := by
  have h := nochange_sentinel sampleNoChangeIn rfl
  exact ⟨rfl, h.1, h.2 rfl⟩

/-- Witness for C10: the sentinel wins over the tag dispatch for an
integer-tagged unchanged value, and over constraint expansion for an
IN-capable unchanged value with constraint mode enabled. -/
theorem nochange_precedes_dispatch_witness :
    convert_value_to_pyobject sampleNoChangeInt false true = some PyObject.noChange
    ∧ convert_value_to_pyobject sampleNoChangeIn true true = some PyObject.noChange :=
  ⟨nochange_precedes_dispatch sampleNoChangeInt false rfl,
   nochange_precedes_dispatch sampleNoChangeIn true rfl⟩

/-! ### The unraisable exception dispatcher: `apsw_write_unraisable`

The C function, with a pending exception: fills in the rest of the
traceback by walking the frame stack; fetches and normalizes the
exception; if `Py_EnterRecursiveCall` refuses (re-entrant invocation),
prints the exception and returns; otherwise mirrors the failure to
`sqlite3_log`, then tries in order the call-site object's
`excepthook`, `sys.unraisablehook` (with a freshly allocated record
argument), and `sys.excepthook`, stopping at the first call returning
a result, clearing the pending error before each attempt; finally it
displays the exception unconditionally, and a last `PyErr_Clear`
guarantees no error is pending on return.  We embed the host-runtime
conditions the function branches on as a finite environment and the
behaviour as the list of protocol actions performed. -/

inductive DispStep where
  | fillTraceback
  | nativeLog
  | callSiteHook
  | unraisableHook
  | sysExcepthook
  | display
  deriving DecidableEq

structure UnraisableEnv where
  canRecurse : Bool
  haveErrValue : Bool
  hookObjectPresent : Bool
  hookAttrFound : Bool
  hookCallOk : Bool
  sysUnraisablePresent : Bool
  structSeqOk : Bool
  sysUnraisableOk : Bool
  sysExcepthookPresent : Bool
  sysExcepthookOk : Bool
  deriving DecidableEq

structure DispResult where
  steps : List DispStep
  pending : Bool
  deriving DecidableEq

/-- Fallthrough to the unconditional last resort: clear any pending
failure, display the exception, and clear again on return. -/
def dispFinish (steps : List DispStep) : DispResult :=
  { steps := steps ++ [DispStep.display], pending := false }

/-- The `sys.excepthook` attempt. -/
def dispSysExcepthook (env : UnraisableEnv) (steps : List DispStep) : DispResult :=
  if env.sysExcepthookPresent then
    if env.sysExcepthookOk then
      { steps := steps ++ [DispStep.sysExcepthook], pending := false }
    else dispFinish (steps ++ [DispStep.sysExcepthook])
  else dispFinish steps

/-- The `sys.unraisablehook` attempt; if the record argument cannot be
allocated the hook is not called and the chain continues. -/
def dispUnraisableHook (env : UnraisableEnv) (steps : List DispStep) : DispResult :=
  if env.sysUnraisablePresent then
    if env.structSeqOk then
      if env.sysUnraisableOk then
        { steps := steps ++ [DispStep.unraisableHook], pending := false }
      else dispSysExcepthook env (steps ++ [DispStep.unraisableHook])
    else dispSysExcepthook env steps
  else dispSysExcepthook env steps

/-- The call-site hook object's `excepthook` attempt; a missing
attribute is cleared and the chain continues. -/
def dispCallSiteHook (env : UnraisableEnv) (steps : List DispStep) : DispResult :=
  if env.hookObjectPresent then
    if env.hookAttrFound then
      if env.hookCallOk then
        { steps := steps ++ [DispStep.callSiteHook], pending := false }
      else dispUnraisableHook env (steps ++ [DispStep.callSiteHook])
    else dispUnraisableHook env steps
  else dispUnraisableHook env steps

/-- `apsw_write_unraisable(hookobject)` as the sequence of protocol
actions it performs and the pending-exception state on return. -/
def apsw_write_unraisable (env : UnraisableEnv) : DispResult :=
  if env.canRecurse then
    dispCallSiteHook env
      ([DispStep.fillTraceback]
        ++ (if env.haveErrValue then [DispStep.nativeLog] else []))
  else
    { steps := [DispStep.fillTraceback, DispStep.display], pending := false }

def stepRank : DispStep → Nat
  | DispStep.fillTraceback => 0
  | DispStep.nativeLog => 1
  | DispStep.callSiteHook => 2
  | DispStep.unraisableHook => 3
  | DispStep.sysExcepthook => 4
  | DispStep.display => 5

/-- A step list follows the protocol's fixed order (strictly increasing
rank, hence each step at most once). -/
def ranksIncreasing : List DispStep → Bool
  | [] => true
  | [_] => true
  | a :: b :: rest => Nat.blt (stepRank a) (stepRank b) && ranksIncreasing (b :: rest)

/-- Claim C6: the dispatcher performs its actions in the fixed order
traceback, native log, call-site hook, unraisable hook, display hook,
unconditional display; the hook chain stops at the first hook that
succeeds; a hook's failure does not stop the chain (when no hook
succeeds the unconditional display runs); and the dispatcher always
returns with no pending exception. -/
theorem unraisable_dispatch_protocol (cr hev hop haf hco sup sso suo sep seo : Bool)
    (env : UnraisableEnv)
    (henv : env = UnraisableEnv.mk cr hev hop haf hco sup sso suo sep seo) :
    (apsw_write_unraisable env).pending = false
    ∧ ranksIncreasing (apsw_write_unraisable env).steps = true
    ∧ (DispStep.callSiteHook ∈ (apsw_write_unraisable env).steps ∧ env.hookCallOk = true →
        DispStep.unraisableHook ∉ (apsw_write_unraisable env).steps
        ∧ DispStep.sysExcepthook ∉ (apsw_write_unraisable env).steps
        ∧ DispStep.display ∉ (apsw_write_unraisable env).steps)
    ∧ (DispStep.unraisableHook ∈ (apsw_write_unraisable env).steps ∧ env.sysUnraisableOk = true →
        DispStep.sysExcepthook ∉ (apsw_write_unraisable env).steps
        ∧ DispStep.display ∉ (apsw_write_unraisable env).steps)
    ∧ (DispStep.sysExcepthook ∈ (apsw_write_unraisable env).steps ∧ env.sysExcepthookOk = true →
        DispStep.display ∉ (apsw_write_unraisable env).steps)
    ∧ (¬(DispStep.callSiteHook ∈ (apsw_write_unraisable env).steps ∧ env.hookCallOk = true)
        ∧ ¬(DispStep.unraisableHook ∈ (apsw_write_unraisable env).steps ∧ env.sysUnraisableOk = true)
        ∧ ¬(DispStep.sysExcepthook ∈ (apsw_write_unraisable env).steps ∧ env.sysExcepthookOk = true) →
        DispStep.display ∈ (apsw_write_unraisable env).steps) := by
  subst henv
  revert cr hev hop haf hco sup sso suo sep seo
  decide

/-- The environment of a dispatch where the call-site hook is present
but fails and `sys.unraisablehook` then succeeds. -/
def envHookFails : UnraisableEnv :=
  { canRecurse := true, haveErrValue := true, hookObjectPresent := true,
    hookAttrFound := true, hookCallOk := false, sysUnraisablePresent := true,
    structSeqOk := true, sysUnraisableOk := true, sysExcepthookPresent := true,
    sysExcepthookOk := true }

/-- Witness for C6: with a failing call-site hook and a succeeding
unraisable hook, the dispatcher returns clean, in order, having tried
both hooks and stopped before the display hook and the display. -/
theorem unraisable_dispatch_protocol_witness :
    (apsw_write_unraisable envHookFails).pending = false
    ∧ ranksIncreasing (apsw_write_unraisable envHookFails).steps = true
    ∧ DispStep.sysExcepthook ∉ (apsw_write_unraisable envHookFails).steps
    ∧ DispStep.display ∉ (apsw_write_unraisable envHookFails).steps := by
  have h := unraisable_dispatch_protocol true true true true false true true true true true
    envHookFails rfl
  have h4 := h.2.2.2.1 ⟨by decide, rfl⟩
  exact ⟨h.1, h.2.1, h4.1, h4.2⟩

/-- The environment of a re-entrant dispatch (the recursion guard
refuses) in which every hook is registered and would succeed. -/
def envReentrant : UnraisableEnv :=
  { canRecurse := false, haveErrValue := true, hookObjectPresent := true,
    hookAttrFound := true, hookCallOk := true, sysUnraisablePresent := true,
    structSeqOk := true, sysUnraisableOk := true, sysExcepthookPresent := true,
    sysExcepthookOk := true }

/-- Counterexample to claim C7 as stated: the re-entrant invocation does
not perform only the unconditional display — it also completes the
traceback first (the frame walk runs before the recursion guard). -/
theorem reentrant_display_only_counterexample :
    ¬((apsw_write_unraisable envReentrant).steps = [DispStep.display]) := by
  decide

/-- Claim C7 (amended): a re-entrant invocation performs only the
traceback completion followed by the unconditional display, invoking
none of the hooks and skipping the native-log mirror, and returns with
no pending exception — bounding recursion depth. -/
theorem reentrant_traceback_and_display (env : UnraisableEnv)
    (h : env.canRecurse = false) :
    (apsw_write_unraisable env).steps = [DispStep.fillTraceback, DispStep.display]
    ∧ (apsw_write_unraisable env).pending = false := by
  simp [apsw_write_unraisable, h]

/-- Witness for C7 (amended) at the concrete re-entrant environment. -/
theorem reentrant_traceback_and_display_witness :
    (apsw_write_unraisable envReentrant).steps
      = [DispStep.fillTraceback, DispStep.display]
    ∧ (apsw_write_unraisable envReentrant).pending = false :=
  reentrant_traceback_and_display envReentrant rfl

end Apsw
